import Mathlib

/-!
Verification development for the verity-ai-showcase repository.

Shallow embedding of the two algorithmic cores:
* `src/risk_assessment_demo/risk_scoring_engine.py` (`RiskScoringEngine`),
* `src/risk_assessment_demo/compliance_checker.py` (`AIComplianceChecker`,
  status thresholds),
* `src/compliance_automation/audit_trail_builder.py` (`AIAuditTrailBuilder`).

Python floats are modelled by exact rationals (`ℚ`); Python dicts by
association lists or functions into `Option`; `datetime.now()` and
`uuid.uuid4()` are threaded in as explicit oracle arguments; the external
`hashlib.sha256` digest is threaded in as an arbitrary function argument
`h : String → String` (its only property used by the code under
verification is that it is a deterministic function).
-/

namespace VerityAI

/-! ## Risk scoring engine (`risk_scoring_engine.py`) -/

/-- The `RiskDimension` enum (risk_scoring_engine.py lines 16-22). -/
inductive RiskDimension
  | TECHNICAL
  | OPERATIONAL
  | REGULATORY
  | ETHICAL
  | BUSINESS
  | SECURITY
deriving DecidableEq, Repr

/-- The `.value` string of each `RiskDimension` member. -/
def RiskDimension.value : RiskDimension → String
  | .TECHNICAL => "technical_risk"
  | .OPERATIONAL => "operational_risk"
  | .REGULATORY => "regulatory_risk"
  | .ETHICAL => "ethical_risk"
  | .BUSINESS => "business_risk"
  | .SECURITY => "security_risk"

/-- The `RiskSeverity` enum (risk_scoring_engine.py lines 25-30). -/
inductive RiskSeverity
  | CRITICAL
  | HIGH
  | MEDIUM
  | LOW
  | MINIMAL
deriving DecidableEq, Repr

/-- The integer `.value` of each `RiskSeverity` member, as a rational. -/
def RiskSeverity.value : RiskSeverity → ℚ
  | .CRITICAL => 5
  | .HIGH => 4
  | .MEDIUM => 3
  | .LOW => 2
  | .MINIMAL => 1

/-- The `RiskFactor` dataclass (risk_scoring_engine.py lines 33-41). -/
structure RiskFactor where
  factor_id : String
  name : String
  dimension : RiskDimension
  weight : ℚ
  severity : RiskSeverity
  description : String
  mitigation_measures : List String
deriving DecidableEq, Repr

/-- The `ai_system` input dictionary, restricted to the keys the engine
reads: `performance_metrics` (itself holding an optional `accuracy`),
`human_oversight`, `compliance_status`, `bias_metrics` (holding an optional
`overall_bias_score`) and `data_types`.  An outer `none` models the key
being absent from the dict. -/
structure SystemInput where
  performance_metrics : Option (Option ℚ)
  human_oversight : Option String
  compliance_status : Option String
  bias_metrics : Option (Option ℚ)
  data_types : List String
deriving DecidableEq, Repr

/-- The `RiskScoringEngine._load_risk_factors` (lines 63-275): the static
factor library, keyed by dimension in dict insertion order. -/
def risk_factors : List (RiskDimension × List RiskFactor) :=
  [ (.TECHNICAL,
      [ { factor_id := "model_accuracy"
        , name := "Model Accuracy and Performance"
        , dimension := .TECHNICAL
        , weight := 25/100
        , severity := .HIGH
        , description := "Risk from inaccurate predictions or poor model performance"
        , mitigation_measures :=
            [ "Implement robust validation frameworks"
            , "Establish performance monitoring"
            , "Deploy A/B testing strategies" ] }
      , { factor_id := "data_quality"
        , name := "Data Quality and Integrity"
        , dimension := .TECHNICAL
        , weight := 20/100
        , severity := .HIGH
        , description := "Risk from poor data quality, completeness, or representativeness"
        , mitigation_measures :=
            [ "Implement data quality monitoring"
            , "Establish data governance protocols"
            , "Deploy automated data validation" ] }
      , { factor_id := "model_complexity"
        , name := "Model Complexity and Interpretability"
        , dimension := .TECHNICAL
        , weight := 15/100
        , severity := .MEDIUM
        , description := "Risk from complex models that are difficult to interpret or debug"
        , mitigation_measures :=
            [ "Implement explainability frameworks"
            , "Deploy model interpretation tools"
            , "Establish complexity governance" ] }
      , { factor_id := "system_integration"
        , name := "System Integration and Dependencies"
        , dimension := .TECHNICAL
        , weight := 15/100
        , severity := .MEDIUM
        , description := "Risk from complex system integrations and dependencies"
        , mitigation_measures :=
            [ "Map system dependencies"
            , "Implement integration testing"
            , "Deploy circuit breaker patterns" ] } ])
  , (.OPERATIONAL,
      [ { factor_id := "human_oversight"
        , name := "Human Oversight and Control"
        , dimension := .OPERATIONAL
        , weight := 30/100
        , severity := .CRITICAL
        , description := "Risk from inadequate human oversight of AI decisions"
        , mitigation_measures :=
            [ "Establish human-in-the-loop processes"
            , "Create oversight protocols"
            , "Train operational staff" ] }
      , { factor_id := "change_management"
        , name := "Change Management and Updates"
        , dimension := .OPERATIONAL
        , weight := 20/100
        , severity := .MEDIUM
        , description := "Risk from poor change management for AI system updates"
        , mitigation_measures :=
            [ "Implement change control processes"
            , "Establish rollback procedures"
            , "Deploy staged deployment strategies" ] }
      , { factor_id := "incident_response"
        , name := "Incident Response Capabilities"
        , dimension := .OPERATIONAL
        , weight := 25/100
        , severity := .HIGH
        , description := "Risk from inadequate incident response and recovery capabilities"
        , mitigation_measures :=
            [ "Create incident response playbooks"
            , "Establish response teams"
            , "Conduct regular drills" ] } ])
  , (.REGULATORY,
      [ { factor_id := "compliance_coverage"
        , name := "Regulatory Compliance Coverage"
        , dimension := .REGULATORY
        , weight := 35/100
        , severity := .CRITICAL
        , description := "Risk from non-compliance with applicable regulations"
        , mitigation_measures :=
            [ "Conduct compliance gap analysis"
            , "Implement compliance monitoring"
            , "Establish legal review processes" ] }
      , { factor_id := "documentation_adequacy"
        , name := "Documentation and Audit Trail"
        , dimension := .REGULATORY
        , weight := 25/100
        , severity := .HIGH
        , description := "Risk from inadequate documentation for regulatory requirements"
        , mitigation_measures :=
            [ "Implement automated documentation"
            , "Establish audit trail systems"
            , "Create compliance dashboards" ] } ])
  , (.ETHICAL,
      [ { factor_id := "bias_fairness"
        , name := "Bias and Fairness"
        , dimension := .ETHICAL
        , weight := 40/100
        , severity := .CRITICAL
        , description := "Risk from biased or unfair AI system outcomes"
        , mitigation_measures :=
            [ "Implement bias detection systems"
            , "Deploy fairness constraints"
            , "Conduct regular audits" ] }
      , { factor_id := "transparency"
        , name := "Transparency and Explainability"
        , dimension := .ETHICAL
        , weight := 30/100
        , severity := .HIGH
        , description := "Risk from lack of transparency in AI decision-making"
        , mitigation_measures :=
            [ "Implement explainable AI"
            , "Create transparency reports"
            , "Establish stakeholder communication" ] } ])
  , (.BUSINESS,
      [ { factor_id := "reputation_impact"
        , name := "Reputation and Brand Risk"
        , dimension := .BUSINESS
        , weight := 30/100
        , severity := .HIGH
        , description := "Risk to organizational reputation from AI system failures"
        , mitigation_measures :=
            [ "Implement brand monitoring"
            , "Create crisis communication plans"
            , "Establish stakeholder engagement" ] }
      , { factor_id := "financial_impact"
        , name := "Financial and Business Impact"
        , dimension := .BUSINESS
        , weight := 35/100
        , severity := .CRITICAL
        , description := "Direct financial risk from AI system failures or errors"
        , mitigation_measures :=
            [ "Implement impact assessment"
            , "Create financial safeguards"
            , "Establish insurance coverage" ] } ])
  , (.SECURITY,
      [ { factor_id := "adversarial_attacks"
        , name := "Adversarial Attack Vulnerability"
        , dimension := .SECURITY
        , weight := 30/100
        , severity := .HIGH
        , description := "Risk from adversarial attacks and model manipulation"
        , mitigation_measures :=
            [ "Implement adversarial training"
            , "Deploy attack detection systems"
            , "Establish security monitoring" ] }
      , { factor_id := "data_privacy"
        , name := "Data Privacy and Security"
        , dimension := .SECURITY
        , weight := 35/100
        , severity := .CRITICAL
        , description := "Risk from data breaches and privacy violations"
        , mitigation_measures :=
            [ "Implement data encryption"
            , "Deploy access controls"
            , "Establish privacy protocols" ] } ])
  ]

/-- The `RiskScoringEngine._load_dimension_weights` (lines 277-286), in dict
insertion order. -/
def dimension_weights : List (RiskDimension × ℚ) :=
  [ (.TECHNICAL, 20/100)
  , (.OPERATIONAL, 15/100)
  , (.REGULATORY, 25/100)
  , (.ETHICAL, 20/100)
  , (.BUSINESS, 15/100)
  , (.SECURITY, 5/100) ]

/-- The `RiskScoringEngine._evaluate_risk_factor` (lines 352-399). -/
def evaluateRiskFactor (ai_system : SystemInput) (factor : RiskFactor) : ℚ :=
  let base_score : ℚ :=
    if factor.factor_id = "model_accuracy" then
      let accuracy := (ai_system.performance_metrics.getD none).getD (8/10)
      if accuracy < 7/10 then 5
      else if accuracy < 85/100 then 3
      else 1
    else if factor.factor_id = "human_oversight" then
      let oversight_level := ai_system.human_oversight.getD "minimal"
      if oversight_level = "none" then 5
      else if oversight_level = "minimal" then 4
      else if oversight_level = "moderate" then 2
      else 1
    else if factor.factor_id = "compliance_coverage" then
      let compliance_status := ai_system.compliance_status.getD "unknown"
      if compliance_status = "non_compliant" then 5
      else if compliance_status = "partial" then 3
      else if compliance_status = "compliant" then 1
      else 4
    else if factor.factor_id = "bias_fairness" then
      let bias_score := (ai_system.bias_metrics.getD none).getD (5/10)
      if bias_score > 8/10 then 5
      else if bias_score > 5/10 then 3
      else 1
    else factor.severity.value
  min 5 (max 1 base_score)

/-- The weight `custom_weights.get(factor.factor_id, factor.weight) if
custom_weights else factor.weight` used in `_calculate_dimension_score`
(line 344). -/
def factorWeight (custom_weights : Option (String → Option ℚ)) (factor : RiskFactor) : ℚ :=
  match custom_weights with
  | some cw => (cw factor.factor_id).getD factor.weight
  | none => factor.weight

/-- The `(total_score, total_weight)` accumulator loop of
`RiskScoringEngine._calculate_dimension_score` (lines 340-348). -/
def dimensionTotals (ai_system : SystemInput) (factors : List RiskFactor)
    (custom_weights : Option (String → Option ℚ)) : ℚ × ℚ :=
  factors.foldl
    (fun acc factor =>
      let weight := factorWeight custom_weights factor
      let factor_score := evaluateRiskFactor ai_system factor
      (acc.1 + factor_score * weight, acc.2 + weight))
    (0, 0)

/-- The `RiskScoringEngine._calculate_dimension_score` (lines 336-350):
`total_score / total_weight if total_weight > 0 else 0.0`. -/
def calculateDimensionScore (ai_system : SystemInput) (factors : List RiskFactor)
    (custom_weights : Option (String → Option ℚ)) : ℚ :=
  match dimensionTotals ai_system factors custom_weights with
  | (total_score, total_weight) =>
      if 0 < total_weight then total_score / total_weight else 0

/-- Dict lookup `dimension_scores[key]` / membership `key in
dimension_scores` on the `dimension_scores` association list. -/
def lookupScore (dimension_scores : List (String × ℚ)) (key : String) : Option ℚ :=
  (dimension_scores.find? (fun p => p.1 == key)).map (·.2)

/-- One iteration of the loop in
`RiskScoringEngine._calculate_overall_score` (lines 406-409): include the
dimension only when its `.value` is a key of `dimension_scores`. -/
def overallStep (dimension_scores : List (String × ℚ)) (acc : ℚ × ℚ)
    (p : RiskDimension × ℚ) : ℚ × ℚ :=
  match lookupScore dimension_scores p.1.value with
  | some s => (acc.1 + s * p.2, acc.2 + p.2)
  | none => acc

/-- The `RiskScoringEngine._calculate_overall_score` (lines 401-411). -/
def calculateOverallScore (dimension_scores : List (String × ℚ)) : ℚ :=
  match dimension_weights.foldl (overallStep dimension_scores) (0, 0) with
  | (total_score, total_weight) =>
      if 0 < total_weight then total_score / total_weight else 0

/-- The `RiskScoringEngine._determine_risk_level` (lines 413-422), with the
thresholds of `_load_scoring_thresholds` (lines 288-295). -/
def determineRiskLevel (score : ℚ) : String :=
  if 4 ≤ score then "Critical"
  else if 3 ≤ score then "High"
  else if 2 ≤ score then "Medium"
  else "Low"

/-- Population variance, as computed by `numpy.var` on a list of floats. -/
def npVar (xs : List ℚ) : ℚ :=
  let n : ℚ := xs.length
  let mean := xs.sum / n
  (xs.map (fun x => (x - mean) ^ 2)).sum / n

/-- The `RiskScoringEngine._calculate_confidence` (lines 424-446). -/
def calculateConfidence (ai_system : SystemInput)
    (dimension_scores : List (String × ℚ)) : ℚ :=
  let data_quality_factors : List Bool :=
    [ ai_system.performance_metrics.isSome
    , ai_system.compliance_status.isSome
    , ai_system.human_oversight.isSome
    , ai_system.bias_metrics.isSome
    , decide (0 < ai_system.data_types.length) ]
  let base_confidence : ℚ :=
    (data_quality_factors.count true : ℚ) / (data_quality_factors.length : ℚ)
  let scores := dimension_scores.map (·.2)
  let base_confidence :=
    if 1 < scores.length then
      let score_variance := npVar scores
      let consistency_factor := max (5/10) (1 - score_variance / 5)
      base_confidence * consistency_factor
    else base_confidence
  min 1 (max (3/10) base_confidence)

/-- The `RiskScore` dataclass (risk_scoring_engine.py lines 44-52). -/
structure RiskScore where
  overall_score : ℚ
  risk_level : String
  dimension_scores : List (String × ℚ)
  critical_factors : List String
  risk_factors : List RiskFactor
  confidence_level : ℚ
  assessment_date : String
deriving DecidableEq, Repr

/-- The `RiskScoringEngine.assess_ai_system_risk` (lines 297-334).  The
`datetime.now().isoformat()` call is threaded in as the oracle argument
`now`. -/
def assessAISystemRisk (ai_system : SystemInput)
    (custom_weights : Option (String → Option ℚ)) (now : String) : RiskScore :=
  let dimension_scores : List (String × ℚ) :=
    risk_factors.map (fun p => (p.1.value, calculateDimensionScore ai_system p.2 custom_weights))
  let all_factors := risk_factors.flatMap (fun p => p.2)
  let critical_factors :=
    (all_factors.filter (fun f => 4.0 ≤ evaluateRiskFactor ai_system f)).map (·.name)
  let overall_score := calculateOverallScore dimension_scores
  let risk_level := determineRiskLevel overall_score
  let confidence_level := calculateConfidence ai_system dimension_scores
  { overall_score := overall_score
  , risk_level := risk_level
  , dimension_scores := dimension_scores
  , critical_factors := critical_factors
  , risk_factors := all_factors
  , confidence_level := confidence_level
  , assessment_date := now }

/-! ## Compliance checker status classifier (`compliance_checker.py`) -/

/-- The `ComplianceStatus` enum (compliance_checker.py lines 39-46). -/
inductive ComplianceStatus
  | FULLY_COMPLIANT
  | SUBSTANTIALLY_COMPLIANT
  | PARTIALLY_COMPLIANT
  | NON_COMPLIANT
  | NOT_ASSESSED
  | NOT_APPLICABLE
deriving DecidableEq, Repr

/-- The `AIComplianceChecker._score_to_status` (compliance_checker.py lines
623-632). -/
def scoreToStatus (score : ℚ) : ComplianceStatus :=
  if 90 ≤ score then .FULLY_COMPLIANT
  else if 75 ≤ score then .SUBSTANTIALLY_COMPLIANT
  else if 50 ≤ score then .PARTIALLY_COMPLIANT
  else .NON_COMPLIANT

/-- Ordinal rank of the compliance labels that `scoreToStatus` can return,
used to state monotonicity of the classifier (higher score, higher rank).
The two labels the classifier never returns are placed at rank 0. -/
def statusRank : ComplianceStatus → ℕ
  | .FULLY_COMPLIANT => 3
  | .SUBSTANTIALLY_COMPLIANT => 2
  | .PARTIALLY_COMPLIANT => 1
  | .NON_COMPLIANT => 0
  | .NOT_ASSESSED => 0
  | .NOT_APPLICABLE => 0

/-! ## Audit trail builder (`audit_trail_builder.py`) -/

/-- The `EventType` enum (audit_trail_builder.py lines 26-37). -/
inductive EventType
  | MODEL_TRAINING
  | MODEL_DEPLOYMENT
  | DATA_PROCESSING
  | PREDICTION_MADE
  | BIAS_DETECTION
  | PERFORMANCE_MONITORING
  | INCIDENT_LOGGED
  | ACCESS_GRANTED
  | CONFIG_CHANGED
  | COMPLIANCE_REVIEW
deriving DecidableEq, Repr

/-- The `.value` string of each `EventType` member. -/
def EventType.value : EventType → String
  | .MODEL_TRAINING => "model_training"
  | .MODEL_DEPLOYMENT => "model_deployment"
  | .DATA_PROCESSING => "data_processing"
  | .PREDICTION_MADE => "prediction_made"
  | .BIAS_DETECTION => "bias_detection"
  | .PERFORMANCE_MONITORING => "performance_monitoring"
  | .INCIDENT_LOGGED => "incident_logged"
  | .ACCESS_GRANTED => "access_granted"
  | .CONFIG_CHANGED => "configuration_changed"
  | .COMPLIANCE_REVIEW => "compliance_review"

/-- The `ComplianceFramework` enum (audit_trail_builder.py lines 40-47). -/
inductive ComplianceFramework
  | GDPR
  | EU_AI_ACT
  | ISO_42001
  | NIST_AI_RMF
  | SOX
  | BASEL_III
deriving DecidableEq, Repr

/-- The `AuditEvent` dataclass (audit_trail_builder.py lines 50-64).
`metadata : Dict[str, Any]` is modelled as a key-value association list. -/
structure AuditEvent where
  event_id : String
  timestamp : String
  event_type : EventType
  system_id : String
  user_id : String
  action_description : String
  data_hash : String
  compliance_frameworks : List ComplianceFramework
  risk_level : String
  business_impact : String
  metadata : List (String × String)
  verification_signature : String
deriving DecidableEq, Repr

/-- The `data_string` over which `log_event` computes the content hash
(audit_trail_builder.py line 151) and which `verify_audit_integrity`
recomputes (line 192):
`f"{event_id}{timestamp}{event_type.value}{system_id}{action_description}"`. -/
def contentDataString (e : AuditEvent) : String :=
  e.event_id ++ e.timestamp ++ e.event_type.value ++ e.system_id ++ e.action_description

/-- The `AuditEvent` value constructed by `AIAuditTrailBuilder.log_event`
(audit_trail_builder.py lines 146-172).  `hash` stands for the
`hashlib.sha256(...).hexdigest()` digest function; `encryption_key` is
`self.encryption_key`; `event_id` (`uuid.uuid4()`) and `timestamp`
(`datetime.now().isoformat()`) are threaded in as oracle arguments. -/
def builtEvent (hash : String → String) (encryption_key : String)
    (event_id timestamp : String) (event_type : EventType)
    (system_id user_id action_description : String)
    (compliance_frameworks : List ComplianceFramework)
    (risk_level business_impact : String)
    (metadata : List (String × String)) : AuditEvent :=
  let data_string := event_id ++ timestamp ++ event_type.value ++ system_id ++ action_description
  let data_hash := hash data_string
  let verification_data := data_hash ++ encryption_key
  let verification_signature := hash verification_data
  { event_id := event_id
  , timestamp := timestamp
  , event_type := event_type
  , system_id := system_id
  , user_id := user_id
  , action_description := action_description
  , data_hash := data_hash
  , compliance_frameworks := compliance_frameworks
  , risk_level := risk_level
  , business_impact := business_impact
  , metadata := metadata
  , verification_signature := verification_signature }

/-- The `AIAuditTrailBuilder.log_event` (lines 138-182) as a transformer of the
`self.audit_events` list: it appends the constructed event and returns the
new list together with the returned `event_id`. -/
def logEvent (hash : String → String) (encryption_key : String)
    (audit_events : List AuditEvent)
    (event_id timestamp : String) (event_type : EventType)
    (system_id user_id action_description : String)
    (compliance_frameworks : List ComplianceFramework)
    (risk_level business_impact : String)
    (metadata : List (String × String)) : List AuditEvent × String :=
  (audit_events ++
      [builtEvent hash encryption_key event_id timestamp event_type system_id
        user_id action_description compliance_frameworks risk_level
        business_impact metadata],
    event_id)

/-- The dictionary returned by `AIAuditTrailBuilder.verify_audit_integrity`
(lines 184-209).  The not-found branch returns only `verified` and
`error`; the found branch returns `verified`, `hash_verified`,
`signature_verified`, `event_timestamp` and `verification_timestamp`;
absent keys are `none`. -/
structure VerificationResult where
  verified : Bool
  error : Option String
  hash_verified : Option Bool
  signature_verified : Option Bool
  event_timestamp : Option String
  verification_timestamp : Option String
deriving DecidableEq, Repr

/-- The `AIAuditTrailBuilder.verify_audit_integrity` (lines 184-209).  `now` is
the oracle argument for `datetime.now().isoformat()` (line 208); the method
only reads `self.audit_events`, passed here as `audit_events`. -/
def verifyAuditIntegrity (hash : String → String) (encryption_key : String)
    (audit_events : List AuditEvent) (event_id : String) (now : String) :
    VerificationResult :=
  match audit_events.find? (fun e => e.event_id == event_id) with
  | none =>
      { verified := false
      , error := some "Event not found"
      , hash_verified := none
      , signature_verified := none
      , event_timestamp := none
      , verification_timestamp := none }
  | some event =>
      let expected_hash := hash (contentDataString event)
      let hash_verified := event.data_hash == expected_hash
      let verification_data := event.data_hash ++ encryption_key
      let expected_signature := hash verification_data
      let signature_verified := event.verification_signature == expected_signature
      { verified := hash_verified && signature_verified
      , error := none
      , hash_verified := some hash_verified
      , signature_verified := some signature_verified
      , event_timestamp := some event.timestamp
      , verification_timestamp := some now }

/-- The method `verify_audit_integrity` viewed as a state transformer on the builder
state `self.audit_events`: the method body contains no mutation, so the
state component is returned unchanged. -/
def verifyAuditIntegrityRun (hash : String → String) (encryption_key : String)
    (audit_events : List AuditEvent) (event_id : String) (now : String) :
    VerificationResult × List AuditEvent :=
  (verifyAuditIntegrity hash encryption_key audit_events event_id now, audit_events)

/-- The `required_events` entry of `AIAuditTrailBuilder._load_compliance_rules`
(lines 87-109); `self.compliance_rules.get(framework, {})` followed by
`rules.get("required_events", [])` yields `[]` for the frameworks absent
from the rules dict. -/
def requiredEvents : ComplianceFramework → List EventType
  | .GDPR => [.DATA_PROCESSING, .ACCESS_GRANTED]
  | .EU_AI_ACT => [.MODEL_TRAINING, .BIAS_DETECTION, .PERFORMANCE_MONITORING]
  | .ISO_42001 => [.COMPLIANCE_REVIEW, .INCIDENT_LOGGED]
  | _ => []

/-- The assignment `missing_events = set(required_events) - logged_event_types` in
`AIAuditTrailBuilder.generate_compliance_report` (line 233). -/
def missingEvents (required_events : List EventType)
    (logged_event_types : Finset EventType) : Finset EventType :=
  required_events.toFinset \ logged_event_types

/-- The `AIAuditTrailBuilder._calculate_compliance_score` (lines 262-274):
`events` enters only through `set(e.event_type for e in events)` (here
`logged_types`) and `len(events)` (here `num_events`). -/
def calculateComplianceScore (required_events : List EventType)
    (logged_types : Finset EventType) (num_events : ℕ) : ℚ :=
  if required_events = [] then 100
  else
    let coverage : ℚ :=
      ((required_events.toFinset ∩ logged_types).card : ℚ) / (required_events.length : ℚ)
    let frequency_score : ℚ := min ((num_events : ℚ) / 100) 1
    (coverage * (7/10) + frequency_score * (3/10)) * 100

/-! ## Spec-side definitions (for refinement comparisons)

These follow the wording of the specification, to be compared against the
definitions above that were translated from the source. -/

/-- Modelled from the spec (§4.4 GapAnalyzer): `coverage = |required ∩
observed| / |required|`, and `coverage` is `1.0`, not undefined, when
`required` is empty. -/
def specCoverage (required observed : Finset EventType) : ℚ :=
  if required = ∅ then 1
  else ((required ∩ observed).card : ℚ) / (required.card : ℚ)

/-- Modelled from the spec (§4.4 GapAnalyzer): `missing = required −
observed`. -/
def specMissing (required observed : Finset EventType) : Finset EventType :=
  required \ observed

/-- Spec-side numerator of the overall risk score (§4.2 level b):
`Σ(W_d * score_d)` over the dimensions actually present in
`dimension_scores`; dimensions without a score are excluded. -/
def presentNum (dimension_scores : List (String × ℚ))
    (weights : List (RiskDimension × ℚ)) : ℚ :=
  ((weights.filter (fun p => (lookupScore dimension_scores p.1.value).isSome)).map
    (fun p => (lookupScore dimension_scores p.1.value).getD 0 * p.2)).sum

/-- Spec-side denominator of the overall risk score (§4.2 level b):
`Σ(W_d)` over the dimensions actually present in `dimension_scores`;
dimensions without a score are excluded. -/
def presentDen (dimension_scores : List (String × ℚ))
    (weights : List (RiskDimension × ℚ)) : ℚ :=
  ((weights.filter (fun p => (lookupScore dimension_scores p.1.value).isSome)).map
    (·.2)).sum

/-! ## Test fixtures

Concrete inputs used by witnesses and counterexamples. -/

/-- An `ai_system` dict containing none of the keys the engine reads. -/
def sysEmpty : SystemInput :=
  { performance_metrics := none
  , human_oversight := none
  , compliance_status := none
  , bias_metrics := none
  , data_types := [] }

/-- A concrete stand-in for the `hashlib.sha256(...).hexdigest()` digest in
closed witness statements.  The parameterized theorems hold for every
digest function; the only property of sha256 the code relies on is that it
is a deterministic function of its input string. -/
def demoHash (s : String) : String := "sha256:" ++ s

/-- A sample risk factor (the `data_quality` entry of the factor library),
used as a concrete input in witnesses. -/
def sampleFactor : RiskFactor :=
  { factor_id := "data_quality"
  , name := "Data Quality and Integrity"
  , dimension := .TECHNICAL
  , weight := 20/100
  , severity := .HIGH
  , description := "Risk from poor data quality, completeness, or representativeness"
  , mitigation_measures := [] }

/-- A partial `dimension_scores` dict: only two of the six dimensions were
evaluated in this run. -/
def demoDimScores : List (String × ℚ) :=
  [("technical_risk", 2), ("ethical_risk", 4)]

/-- An observed event-kind set covering two of the three EU-AI-Act
required event kinds. -/
def demoObserved : Finset EventType := {.MODEL_TRAINING, .PERFORMANCE_MONITORING}

/-- An audit event logged by the actor `alice`. -/
def eventAlice : AuditEvent :=
  builtEvent demoHash "secret" "e1" "2025-01-01T00:00:00" .MODEL_TRAINING
    "sys-1" "alice" "model retrained" [.EU_AI_ACT] "high" "critical"
    [("training_samples", "50000")]

/-- The same event draft logged by the actor `bob` with different metadata,
frameworks, risk tier and business-impact tier, but identical identifier,
timestamp, event kind, subject system and description. -/
def eventBob : AuditEvent :=
  builtEvent demoHash "secret" "e1" "2025-01-01T00:00:00" .MODEL_TRAINING
    "sys-1" "bob" "model retrained" [.GDPR] "low" "medium" []

/-! ## Helper lemmas -/

/-- The function `find?` over `l ++ [a]` returns `a` when nothing in `l` matches and
`a` does: the appended event is the one found when its id is fresh. -/
theorem find?_append_singleton {α : Type} (p : α → Bool) (l : List α) (a : α)
    (h : ∀ x ∈ l, p x = false) (ha : p a = true) :
    (l ++ [a]).find? p = some a := by
  induction l with
  | nil =>
      rw [List.nil_append]
      exact List.find?_cons_of_pos _ ha
  | cons b t ih =>
      have hb : ¬ p b := by simp [h b (by simp)]
      rw [List.cons_append, List.find?_cons_of_neg _ hb]
      exact ih (fun x hx => h x (by simp [hx]))

/-- The `(total_score, total_weight)` loop of `_calculate_overall_score`
computes exactly the sums over the dimensions present in
`dimension_scores`. -/
theorem foldl_overallStep_eq (ds : List (String × ℚ))
    (L : List (RiskDimension × ℚ)) (a b : ℚ) :
    L.foldl (overallStep ds) (a, b) = (a + presentNum ds L, b + presentDen ds L) := by
  induction L generalizing a b with
  | nil => simp [presentNum, presentDen]
  | cons p t ih =>
      rw [List.foldl_cons]
      cases hp : lookupScore ds p.1.value with
      | none =>
          rw [show overallStep ds (a, b) p = (a, b) by simp [overallStep, hp]]
          rw [ih]
          simp [presentNum, presentDen, List.filter_cons, hp]
      | some s =>
          rw [show overallStep ds (a, b) p = (a + s * p.2, b + p.2) by
            simp [overallStep, hp]]
          rw [ih]
          simp only [presentNum, presentDen, List.filter_cons, hp,
            Option.isSome_some, if_pos, List.map_cons, List.sum_cons,
            Option.getD_some, Prod.mk.injEq]
          constructor <;> ring

/-! ## Claim C1 -/

/-- C1 counterexample: on a factor set whose custom weights all equal
zero, `_calculate_dimension_score` returns the numeric score `0.0` — not
any `Undetermined` marker (no such value exists in the engine) — and
`_calculate_overall_score` on an empty score dict likewise returns `0.0`. -/
theorem zero_weight_returns_numeric_zero :
    calculateDimensionScore sysEmpty [sampleFactor] (some (fun _ => some 0)) = 0 ∧
    calculateOverallScore [] = 0 := by
  constructor
  · norm_num [calculateDimensionScore, dimensionTotals, factorWeight]
  · norm_num [calculateOverallScore, overallStep, lookupScore, dimension_weights]

/-- C1 as amended: whenever the accumulated total weight is not positive
(in particular when the weights sum to zero), both the per-dimension score
and the cross-dimension overall score silently return the default numeric
value `0.0`; no `Undetermined` result is ever produced. -/
theorem zero_total_weight_scores_default_zero :
    (∀ sys factors cw, (dimensionTotals sys factors cw).2 ≤ 0 →
        calculateDimensionScore sys factors cw = 0) ∧
    (∀ ds, (dimension_weights.foldl (overallStep ds) (0, 0)).2 ≤ 0 →
        calculateOverallScore ds = 0) := by
  constructor
  · intro sys factors cw h
    rcases hEq : dimensionTotals sys factors cw with ⟨ts, tw⟩
    rw [hEq] at h
    simp only [calculateDimensionScore, hEq]
    exact if_neg (not_lt.mpr h)
  · intro ds h
    rcases hEq : dimension_weights.foldl (overallStep ds) (0, 0) with ⟨ts, tw⟩
    rw [hEq] at h
    simp only [calculateOverallScore, hEq]
    exact if_neg (not_lt.mpr h)

/-- C1 witness: the amended theorem applied at a concrete zero-weight
input. -/
theorem zero_total_weight_scores_default_zero_check :
    (dimensionTotals sysEmpty [sampleFactor] (some (fun _ => some 0))).2 ≤ 0 ∧
    calculateDimensionScore sysEmpty [sampleFactor] (some (fun _ => some 0)) = 0 :=
  ⟨by norm_num [dimensionTotals, factorWeight],
    zero_total_weight_scores_default_zero.1 sysEmpty [sampleFactor]
      (some (fun _ => some 0)) (by norm_num [dimensionTotals, factorWeight])⟩

/-! ## Claim C2 -/

/-- C2: for every event draft appended with a fresh event id,
`verify_audit_integrity` on that id recomputes the content hash and the
signature independently and both comparisons succeed (`hash_verified =
true`, `signature_verified = true`, hence `verified = true`), for every
digest function and encryption key. -/
theorem append_then_verify_ok (hash : String → String) (key : String)
    (events : List AuditEvent) (event_id timestamp : String) (et : EventType)
    (system_id user_id action_description : String)
    (fw : List ComplianceFramework) (risk_level business_impact : String)
    (metadata : List (String × String)) (now : String)
    (hfresh : event_id ∉ events.map AuditEvent.event_id) :
    (verifyAuditIntegrity hash key
        (logEvent hash key events event_id timestamp et system_id user_id
          action_description fw risk_level business_impact metadata).1
        event_id now).verified = true ∧
    (verifyAuditIntegrity hash key
        (logEvent hash key events event_id timestamp et system_id user_id
          action_description fw risk_level business_impact metadata).1
        event_id now).hash_verified = some true ∧
    (verifyAuditIntegrity hash key
        (logEvent hash key events event_id timestamp et system_id user_id
          action_description fw risk_level business_impact metadata).1
        event_id now).signature_verified = some true := by
  have hall : ∀ e ∈ events, (e.event_id == event_id) = false := by
    intro e he
    simp only [beq_eq_false_iff_ne, ne_eq]
    intro hEq
    exact hfresh (hEq ▸ List.mem_map_of_mem AuditEvent.event_id he)
  have hfind : ((logEvent hash key events event_id timestamp et system_id
      user_id action_description fw risk_level business_impact metadata).1).find?
        (fun e => e.event_id == event_id) =
      some (builtEvent hash key event_id timestamp et system_id user_id
        action_description fw risk_level business_impact metadata) := by
    exact find?_append_singleton _ events _ hall (by simp [builtEvent])
  refine ⟨?_, ?_, ?_⟩ <;>
    simp [verifyAuditIntegrity, hfind, builtEvent, contentDataString]

/-- C2 witness: the theorem applied at a concrete event draft appended to
an empty ledger, with the concrete digest stand-in. -/
theorem append_then_verify_ok_check :
    ("e1" ∉ ([] : List AuditEvent).map AuditEvent.event_id) ∧
    (verifyAuditIntegrity demoHash "secret"
        (logEvent demoHash "secret" [] "e1" "2025-01-01T00:00:00"
          .MODEL_TRAINING "sys-1" "alice" "model retrained" [.EU_AI_ACT]
          "high" "critical" []).1
        "e1" "2025-02-01T00:00:00").verified = true :=
  ⟨by simp,
    (append_then_verify_ok demoHash "secret" [] "e1" "2025-01-01T00:00:00"
      .MODEL_TRAINING "sys-1" "alice" "model retrained" [.EU_AI_ACT]
      "high" "critical" [] "2025-02-01T00:00:00" (by simp)).1⟩

/-! ## Claim C3 -/

/-- C3: when the total weight of the dimensions present is positive, the
overall risk score equals the weighted mean `Σ(W_d * score_d) / Σ(W_d)`
taken only over the dimensions that actually appear in the
`dimension_scores` dict: a dimension with no score in this run is excluded
from both the numerator and the denominator. -/
theorem overall_score_weighted_mean_present (ds : List (String × ℚ))
    (h : 0 < presentDen ds dimension_weights) :
    calculateOverallScore ds =
      presentNum ds dimension_weights / presentDen ds dimension_weights := by
  have hkey := foldl_overallStep_eq ds dimension_weights 0 0
  simp only [zero_add] at hkey
  simp only [calculateOverallScore, hkey]
  exact if_pos h

/-- C3 witness: the theorem applied to a run in which only the technical
and ethical dimensions were evaluated. -/
theorem overall_score_weighted_mean_present_check :
    0 < presentDen demoDimScores dimension_weights ∧
    calculateOverallScore demoDimScores =
      presentNum demoDimScores dimension_weights /
        presentDen demoDimScores dimension_weights :=
  ⟨by simp +decide [presentDen, dimension_weights, lookupScore, demoDimScores],
    overall_score_weighted_mean_present demoDimScores
      (by simp +decide [presentDen, dimension_weights, lookupScore, demoDimScores])⟩

/-! ## Claim C4 -/

/-- C4 counterexample: two invocations of `assess_ai_system_risk` with
identical assessment inputs do not produce identical output, because the
result embeds `assessment_date = datetime.now().isoformat()`: at two
different clock readings the `RiskScore` values differ. -/
theorem assessment_depends_on_time :
    assessAISystemRisk sysEmpty none "2025-01-01T00:00:00" ≠
      assessAISystemRisk sysEmpty none "2025-01-02T00:00:00" := by
  intro h
  have hd : ("2025-01-01T00:00:00" : String) = "2025-01-02T00:00:00" :=
    congrArg RiskScore.assessment_date h
  exact absurd hd (by decide)

/-- C4 as amended: every field of the assessment result other than the
`assessment_date` timestamp — overall score, risk level, dimension scores,
critical factors, risk factors and confidence — is a deterministic
function of the supplied inputs alone; only the embedded wall-clock
timestamp differs between two runs on identical inputs. -/
theorem assessment_deterministic_except_date (sys : SystemInput)
    (cw : Option (String → Option ℚ)) (t1 t2 : String) :
    (assessAISystemRisk sys cw t1).overall_score =
        (assessAISystemRisk sys cw t2).overall_score ∧
    (assessAISystemRisk sys cw t1).risk_level =
        (assessAISystemRisk sys cw t2).risk_level ∧
    (assessAISystemRisk sys cw t1).dimension_scores =
        (assessAISystemRisk sys cw t2).dimension_scores ∧
    (assessAISystemRisk sys cw t1).critical_factors =
        (assessAISystemRisk sys cw t2).critical_factors ∧
    (assessAISystemRisk sys cw t1).risk_factors =
        (assessAISystemRisk sys cw t2).risk_factors ∧
    (assessAISystemRisk sys cw t1).confidence_level =
        (assessAISystemRisk sys cw t2).confidence_level :=
  ⟨rfl, rfl, rfl, rfl, rfl, rfl⟩

/-! ## Claim C5 -/

/-- C5: `_score_to_status` maps every numeric score to exactly one label
through the ordered thresholds 90 / 75 / 50: scores of at least 90 are
fully compliant, at least 75 and below 90 substantially compliant, at
least 50 and below 75 partially compliant, and all lower scores
non-compliant; the classification is monotone in the score, and
`classify(90)`, `classify(89.999)` and `classify(0)` are respectively
fully, substantially and non-compliant. -/
theorem score_to_status_thresholds_monotone :
    (∀ s t : ℚ, s ≤ t → statusRank (scoreToStatus s) ≤ statusRank (scoreToStatus t)) ∧
    (∀ s : ℚ, 90 ≤ s → scoreToStatus s = .FULLY_COMPLIANT) ∧
    (∀ s : ℚ, 75 ≤ s → s < 90 → scoreToStatus s = .SUBSTANTIALLY_COMPLIANT) ∧
    (∀ s : ℚ, 50 ≤ s → s < 75 → scoreToStatus s = .PARTIALLY_COMPLIANT) ∧
    (∀ s : ℚ, s < 50 → scoreToStatus s = .NON_COMPLIANT) ∧
    scoreToStatus 90 = .FULLY_COMPLIANT ∧
    scoreToStatus (89999/1000) = .SUBSTANTIALLY_COMPLIANT ∧
    scoreToStatus 0 = .NON_COMPLIANT := by
  refine ⟨?_, ?_, ?_, ?_, ?_, ?_, ?_, ?_⟩
  · intro s t hst
    unfold scoreToStatus
    split_ifs <;> simp [statusRank] <;> linarith
  · intro s h
    unfold scoreToStatus
    rw [if_pos h]
  · intro s h1 h2
    unfold scoreToStatus
    rw [if_neg (by linarith), if_pos h1]
  · intro s h1 h2
    unfold scoreToStatus
    rw [if_neg (by linarith), if_neg (by linarith), if_pos h1]
  · intro s h
    unfold scoreToStatus
    rw [if_neg (by linarith), if_neg (by linarith), if_neg (by linarith)]
  · norm_num [scoreToStatus]
  · norm_num [scoreToStatus]
  · norm_num [scoreToStatus]

/-- C5 witness: the monotone component of the theorem applied at the
concrete pair of scores 60 ≤ 80. -/
theorem score_to_status_thresholds_monotone_check :
    ((60 : ℚ) ≤ 80) ∧
    statusRank (scoreToStatus 60) ≤ statusRank (scoreToStatus 80) :=
  ⟨by norm_num, score_to_status_thresholds_monotone.1 60 80 (by norm_num)⟩

/-! ## Claim C6 -/

set_option maxHeartbeats 1000000 in
/-- C6: gap analysis computes `missing = required − observed` and the
coverage ratio `|required ∩ observed| / |required|`, with full coverage
(score `100.0`, not an error) when the required set is empty; concretely,
the EU-AI-Act required set `{MODEL_TRAINING, BIAS_DETECTION,
PERFORMANCE_MONITORING}` against the observed set `{MODEL_TRAINING,
PERFORMANCE_MONITORING}` yields missing `{BIAS_DETECTION}` and coverage
`2/3`, and a framework with an empty required set scores `100`. -/
theorem gap_missing_and_coverage (required : List EventType)
    (observed : Finset EventType) (n : ℕ) (hnd : required.Nodup) :
    missingEvents required observed = specMissing required.toFinset observed ∧
    (required = [] → calculateComplianceScore required observed n = 100) ∧
    (required ≠ [] → calculateComplianceScore required observed n =
        (specCoverage required.toFinset observed * (7/10) +
          min ((n : ℚ) / 100) 1 * (3/10)) * 100) ∧
    missingEvents (requiredEvents .EU_AI_ACT) demoObserved = {.BIAS_DETECTION} ∧
    specCoverage (requiredEvents .EU_AI_ACT).toFinset demoObserved = 2/3 ∧
    calculateComplianceScore (requiredEvents .SOX) ∅ 0 = 100 := by
  refine ⟨rfl, ?_, ?_, by decide, ?_, ?_⟩
  · intro h
    subst h
    simp [calculateComplianceScore]
  · intro h
    simp only [calculateComplianceScore, specCoverage]
    rw [if_neg h, if_neg ((not_iff_not.mpr (List.toFinset_eq_empty_iff required)).mpr h)]
    rw [List.toFinset_card_of_nodup hnd]
  · have h2 : ((requiredEvents ComplianceFramework.EU_AI_ACT).toFinset ∩
        demoObserved).card = 2 := by
      decide
    have h3 : (requiredEvents ComplianceFramework.EU_AI_ACT).toFinset.card = 3 := by
      decide
    simp only [specCoverage]
    rw [if_neg (by decide), h2, h3]
    norm_num
  · simp [calculateComplianceScore, requiredEvents]

set_option maxHeartbeats 1000000 in
/-- C6 witness: the theorem applied to the EU-AI-Act required-event set
with two of its three required event kinds observed. -/
theorem gap_missing_and_coverage_check :
    (requiredEvents .EU_AI_ACT).Nodup ∧
    calculateComplianceScore (requiredEvents .EU_AI_ACT) demoObserved 2 =
      (specCoverage (requiredEvents .EU_AI_ACT).toFinset demoObserved * (7/10) +
        min (((2 : ℕ) : ℚ) / 100) 1 * (3/10)) * 100 :=
  have h1 : (requiredEvents .EU_AI_ACT).Nodup := by decide
  have h2 : requiredEvents .EU_AI_ACT ≠ [] := by decide
  ⟨h1, (gap_missing_and_coverage (requiredEvents .EU_AI_ACT)
    demoObserved 2 h1).2.2.1 h2⟩

/-! ## Claim C7 -/

/-- C7 counterexample: two events logged with identical identifier,
timestamp, event kind, subject system and description but different actor
(`alice` vs `bob`), metadata, declared frameworks, risk tier and
business-impact tier receive the same `data_string` and hence the same
content hash: altering those fields does not change the recomputed
content hash. -/
theorem content_hash_ignores_uncovered_fields :
    eventAlice.user_id ≠ eventBob.user_id ∧
    eventAlice.metadata ≠ eventBob.metadata ∧
    eventAlice.compliance_frameworks ≠ eventBob.compliance_frameworks ∧
    eventAlice.risk_level ≠ eventBob.risk_level ∧
    eventAlice.business_impact ≠ eventBob.business_impact ∧
    contentDataString eventAlice = contentDataString eventBob ∧
    eventAlice.data_hash = eventBob.data_hash := by
  refine ⟨?_, ?_, ?_, ?_, ?_, ?_, ?_⟩ <;> decide

/-- C7 as amended: the content hash is computed deterministically over the
event identifier, timestamp, event kind, subject-system identifier and
description only; the actor identifier, metadata, declared frameworks,
risk tier and business-impact tier are not covered, so the hash is
unchanged when only those fields differ, and it is recomputable from the
event's stored fields. -/
theorem content_hash_covers_five_fields_only
    (hash : String → String) (key : String) (event_id timestamp : String)
    (et : EventType) (system_id : String) (u1 u2 action_description : String)
    (fw1 fw2 : List ComplianceFramework) (r1 r2 b1 b2 : String)
    (m1 m2 : List (String × String)) :
    (builtEvent hash key event_id timestamp et system_id u1 action_description
        fw1 r1 b1 m1).data_hash =
      (builtEvent hash key event_id timestamp et system_id u2 action_description
        fw2 r2 b2 m2).data_hash ∧
    (builtEvent hash key event_id timestamp et system_id u1 action_description
        fw1 r1 b1 m1).data_hash =
      hash (contentDataString (builtEvent hash key event_id timestamp et
        system_id u1 action_description fw1 r1 b1 m1)) :=
  ⟨rfl, rfl⟩

/-! ## Claim C8 -/

/-- C8 counterexample: a custom weight of `2.0` — outside the declared
`[0,1]` range — is accepted and used verbatim by
`_calculate_dimension_score` at scoring time, producing the numeric score
`4`; no configuration error is raised at load time or at any other time. -/
theorem out_of_range_weight_accepted :
    (1 : ℚ) < 2 ∧
    calculateDimensionScore sysEmpty [sampleFactor] (some (fun _ => some 2)) = 4 := by
  have hev : evaluateRiskFactor sysEmpty sampleFactor = 4 := by
    unfold evaluateRiskFactor
    rw [if_neg (by decide), if_neg (by decide), if_neg (by decide),
      if_neg (by decide)]
    norm_num [sampleFactor, RiskSeverity.value, min_def, max_def]
  constructor
  · norm_num
  · simp only [calculateDimensionScore, dimensionTotals, List.foldl_cons,
      List.foldl_nil, factorWeight, Option.getD_some, zero_add, hev]
    rw [if_pos (by norm_num : (0:ℚ) < 2)]
    norm_num

/-- C8 as amended: the engine performs no validation of weights at load
time or scoring time — caller-supplied custom weights are used exactly as
given, even outside `[0,1]` (with a single factor of positive weight `w`
the weight cancels and the dimension score equals the factor score) —
while factor scores themselves are clamped into `[1,5]` during scoring by
`_evaluate_risk_factor`. -/
theorem no_load_time_validation_scores_clamped :
    (∀ sys f, 1 ≤ evaluateRiskFactor sys f ∧ evaluateRiskFactor sys f ≤ 5) ∧
    (∀ sys f (w : ℚ), 0 < w →
        calculateDimensionScore sys [f] (some (fun _ => some w)) =
          evaluateRiskFactor sys f) := by
  constructor
  · intro sys f
    have hb : ∀ b : ℚ, 1 ≤ min 5 (max 1 b) ∧ min 5 (max 1 b) ≤ 5 := fun b =>
      ⟨le_min (by norm_num) (le_max_left _ _), min_le_left _ _⟩
    unfold evaluateRiskFactor
    exact hb _
  · intro sys f w hw
    simp only [calculateDimensionScore, dimensionTotals, List.foldl_cons,
      List.foldl_nil, factorWeight, Option.getD_some, zero_add]
    rw [if_pos hw]
    exact mul_div_cancel_right₀ _ hw.ne'

/-- C8 witness: the amended theorem applied at the out-of-range weight
`2.0` on a concrete factor. -/
theorem no_load_time_validation_scores_clamped_check :
    (0 : ℚ) < 2 ∧
    calculateDimensionScore sysEmpty [sampleFactor] (some (fun _ => some 2)) =
      evaluateRiskFactor sysEmpty sampleFactor :=
  ⟨by norm_num,
    no_load_time_validation_scores_clamped.2 sysEmpty sampleFactor 2 (by norm_num)⟩

/-! ## Claim C9 -/

/-- C9: for every subject-system input and non-empty dimension-score dict,
the confidence value returned by `_calculate_confidence` lies in the
closed interval `[0.3, 1.0]`: the final clamp `min(1.0, max(0.3, ...))`
guarantees it is never below `0.3`, whatever the data-completeness flags
and score dispersion are. -/
theorem confidence_within_bounds (sys : SystemInput) (ds : List (String × ℚ))
    (_h : ds ≠ []) :
    3/10 ≤ calculateConfidence sys ds ∧ calculateConfidence sys ds ≤ 1 := by
  unfold calculateConfidence
  exact ⟨le_min (by norm_num) (le_max_left _ _), min_le_left _ _⟩

/-- C9 witness: the theorem applied to the empty-keyed system input with a
concrete two-dimension score dict. -/
theorem confidence_within_bounds_check :
    demoDimScores ≠ [] ∧
    (3/10 ≤ calculateConfidence sysEmpty demoDimScores ∧
      calculateConfidence sysEmpty demoDimScores ≤ 1) :=
  ⟨by simp [demoDimScores],
    confidence_within_bounds sysEmpty demoDimScores (by simp [demoDimScores])⟩

/-! ## Claim C10 -/

/-- C10: verifying an event id that is not present in the ledger returns
`verified = false` with the explanatory `error = "Event not found"` (no
exception path exists), and verification — found or not — leaves the
stored event list unchanged. -/
theorem verify_unknown_event_not_found (hash : String → String) (key : String)
    (events : List AuditEvent) (event_id now : String)
    (h : event_id ∉ events.map AuditEvent.event_id) :
    (verifyAuditIntegrity hash key events event_id now).verified = false ∧
    (verifyAuditIntegrity hash key events event_id now).error =
        some "Event not found" ∧
    (∀ anyId anyNow,
        (verifyAuditIntegrityRun hash key events anyId anyNow).2 = events) := by
  have hfind : events.find? (fun e => e.event_id == event_id) = none := by
    rw [List.find?_eq_none]
    intro x hx hEq
    have hx2 : x.event_id = event_id := by simpa using hEq
    exact h (hx2 ▸ List.mem_map_of_mem AuditEvent.event_id hx)
  refine ⟨?_, ?_, fun _ _ => rfl⟩ <;> simp [verifyAuditIntegrity, hfind]

/-- C10 witness: the theorem applied to a one-event ledger queried with an
absent event id. -/
theorem verify_unknown_event_not_found_check :
    ("missing" ∉ [eventAlice].map AuditEvent.event_id) ∧
    (verifyAuditIntegrity demoHash "secret" [eventAlice] "missing"
        "2025-03-01T00:00:00").verified = false :=
  ⟨by decide,
    (verify_unknown_event_not_found demoHash "secret" [eventAlice] "missing"
      "2025-03-01T00:00:00" (by decide)).1⟩

end VerityAI
